import Mathlib

/-!
# TinyRender core: sampling primitives and scene queries

A shallow embedding of `src/core/math.h` (`clamp`, `Sampler`, `Distribution1D`) and of the
scene-query methods of `src/core/integrator.cpp`, followed by the properties proved about them.

Modelling conventions
* `float` is modelled by `ℚ`: arithmetic is exact. Rounding, NaN and infinities are outside the
  model; in particular a quotient by zero, which IEEE arithmetic turns into NaN or an infinity,
  has no meaningful value here and no theorem depends on one.
* `assert` is taken to be enabled (no `NDEBUG`): a failed assertion is the outcome `assertFail`.
* An access outside a `std::vector`, and a `float → size_t` conversion whose value does not fit,
  are undefined behaviour in C++: the outcome `undefined`.
* `size_t` is `Nat` with an explicit `% 2 ^ 64` where the code subtracts; `int` values computed
  from vector sizes are taken exact (sizes below `2 ^ 31`).
-/

namespace TinyRender

/-- Result of running a piece of the program: a value, a failed `assert`, or undefined
behaviour. -/
inductive Outcome (α : Type) where
  | value (a : α)
  | assertFail
  | undefined
  deriving DecidableEq

/-! ## `math.h`: `clamp` -/

/-- The template `clamp(v, min, max) = std::min(std::max(v, min), max)`. -/
def clamp {T : Type} [LinearOrder T] (v lo hi : T) : T :=
  min (max v lo) hi

/-! ## `math.h`: `Distribution1D` -/

/-- The `struct Distribution1D`: the cumulative array (initially `{0}`) and the normalisation flag
(initially `false`). -/
structure Distribution1D where
  cdf : List ℚ := [0]
  isNormalized : Bool := false
  deriving DecidableEq

namespace Distribution1D

/-- Method `pdf(i)`: `assert(isNormalized); return cdf[i + 1] - cdf[i];`. -/
def pdf (d : Distribution1D) (i : Nat) : Outcome ℚ :=
  if d.isNormalized then
    if h : i + 1 < d.cdf.length then
      .value (d.cdf[i + 1] - d.cdf[i])
    else .undefined
  else .assertFail

/-- The loop of `std::upper_bound` on the range `[first, first + len)`: halve `len` until it is
zero. `middle` stays inside the vector, so the default of `getD` is never used. -/
def upper_bound_loop (v : List ℚ) (val : ℚ) (first len : Nat) : Nat :=
  if h : 0 < len then
    let half := len / 2
    let middle := first + half
    if val < v.getD middle 0 then
      upper_bound_loop v val first half
    else
      upper_bound_loop v val (middle + 1) (len - half - 1)
  else first
termination_by len
decreasing_by
  all_goals simp_wf
  all_goals omega

/-- The call `std::upper_bound(v.begin(), v.end(), val)`, as the distance from `v.begin()`. -/
def upper_bound (v : List ℚ) (val : ℚ) : Nat :=
  upper_bound_loop v val 0 v.length

/-- Method `sample(sample)`: `assert(isNormalized)`, then the position found by `upper_bound`, minus
one, clamped to `[0, int(cdf.size()) - 2]`. -/
def sample (d : Distribution1D) (u : ℚ) : Outcome Int :=
  if d.isNormalized then
    .value (clamp ((upper_bound d.cdf u : Int) - 1) 0 ((d.cdf.length : Int) - 2))
  else .assertFail

end Distribution1D

/-! ## `math.h`: `Sampler` -/

/-- State of `std::mt19937`, the `mersenne_twister_engine` with the parameters the C++ standard
fixes (`w = 32, n = 624, m = 397, r = 31, a = 0x9908b0df, u = 11, d = 0xffffffff, s = 7,
b = 0x9d2c5680, t = 15, c = 0xefc60000, l = 18, f = 1812433253`): the `624` words and the
position of the next word to hand out. -/
structure mt19937 where
  x : List Nat
  p : Nat
  deriving DecidableEq

namespace mt19937

/-- Words `x[i], x[i+1], ...` of the seeding recurrence
`x[i] = (f * (x[i-1] xor (x[i-1] >> 30)) + i) mod 2^32`. -/
def seed_fill : Nat → Nat → Nat → List Nat
  | 0, _, _ => []
  | k + 1, i, prev =>
    let xi := (1812433253 * (prev ^^^ (prev >>> 30)) + i) % 2 ^ 32
    xi :: seed_fill k (i + 1) xi

/-- Method `seed(value)`, which is also the state `mt19937(value)` constructs: the standard gives the
two the same effect. -/
def seed (value : Nat) : mt19937 :=
  let x0 := value % 2 ^ 32
  { x := x0 :: seed_fill 623 1 x0, p := 624 }

/-- The in-place regeneration of the `624` words, word `k` onwards. -/
def gen_rand_loop : Nat → Nat → List Nat → List Nat
  | 0, _, x => x
  | fuel + 1, k, x =>
    let y := (x.getD k 0 &&& 0x80000000) ||| (x.getD ((k + 1) % 624) 0 &&& 0x7fffffff)
    let xk := x.getD ((k + 397) % 624) 0 ^^^ (y >>> 1) ^^^ (if y % 2 = 1 then 0x9908b0df else 0)
    gen_rand_loop fuel (k + 1) (x.set k xk)

/-- Regenerates all `624` words. -/
def gen_rand (x : List Nat) : List Nat :=
  gen_rand_loop 624 0 x

/-- The call `operator()`: regenerates the words when they are used up, then tempers the next word. -/
def next (g : mt19937) : Nat × mt19937 :=
  let g1 : mt19937 := if 624 ≤ g.p then { x := gen_rand g.x, p := 0 } else g
  let z0 := g1.x.getD g1.p 0
  let z1 := z0 ^^^ ((z0 >>> 11) &&& 0xffffffff)
  let z2 := z1 ^^^ ((z1 <<< 7) &&& 0x9d2c5680)
  let z3 := z2 ^^^ ((z2 <<< 15) &&& 0xefc60000)
  let z4 := z3 ^^^ (z3 >>> 18)
  (z4, { g1 with p := g1.p + 1 })

end mt19937

/-- The type `std::uniform_real_distribution<float>`: its only state is the pair of bounds. -/
structure uniform_real_distribution where
  a : ℚ
  b : ℚ
  deriving DecidableEq

namespace uniform_real_distribution

/-- Method `reset()`: there is no cached value to drop, the bounds stay. -/
def reset (d : uniform_real_distribution) : uniform_real_distribution :=
  d

/-- The call `d(g)`: one 32-bit word of the engine, scaled by `2^32` into `[0, 1)` and then into
`[a, b)`. -/
def draw (d : uniform_real_distribution) (g : mt19937) : ℚ × mt19937 :=
  let r := g.next
  ((r.1 : ℚ) / 2 ^ 32 * (d.b - d.a) + d.a, r.2)

end uniform_real_distribution

/-- The `struct Sampler`: the engine `g` and the distribution `d`. -/
structure Sampler where
  g : mt19937
  d : uniform_real_distribution
  deriving DecidableEq

namespace Sampler

/-- Conversion of the `int` seed to the unsigned 32-bit seed of the engine. -/
def seedWord (seed : Int) : Nat :=
  (seed % 2 ^ 32).toNat

/-- The constructor `Sampler(int seed)`. -/
def ofSeed (seed : Int) : Sampler :=
  { g := mt19937.seed (seedWord seed), d := { a := 0, b := 1 } }

/-- Method `next()`: `return d(g);`. -/
def next (s : Sampler) : ℚ × Sampler :=
  let r := s.d.draw s.g
  (r.1, { s with g := r.2 })

/-- Method `next2D()`: `return {d(g), d(g)};`, the first component drawn first. -/
def next2D (s : Sampler) : (ℚ × ℚ) × Sampler :=
  let r1 := s.d.draw s.g
  let r2 := s.d.draw r1.2
  ((r1.1, r2.1), { s with g := r2.2 })

/-- Method `setSeed(seed)`: `g.seed(seed); d.reset();`. -/
def setSeed (s : Sampler) (seed : Int) : Sampler :=
  { g := mt19937.seed (seedWord seed), d := s.d.reset }

/-- One call on a sampler that draws. -/
inductive Draw where
  | next
  | next2D
  deriving DecidableEq

/-- Runs the calls in order; returns the scalars drawn, in order, and the sampler reached. -/
def run : List Draw → Sampler → List ℚ × Sampler
  | [], s => ([], s)
  | Draw.next :: cs, s =>
    let r := s.next
    let rest := run cs r.2
    (r.1 :: rest.1, rest.2)
  | Draw.next2D :: cs, s =>
    let r := s.next2D
    let rest := run cs r.2
    (r.1.1 :: r.1.2 :: rest.1, rest.2)

end Sampler

/-! ## `integrator.cpp`: scene queries -/

/-- Modelled from the spec: `Emitter` is declared outside `src/`; the one attribute the queries
read is the shape it is attached to, `shapeID`. -/
structure Emitter where
  shapeID : Nat
  deriving DecidableEq

/-- Modelled from the spec: `Scene` is declared outside `src/`; the queries below read only its
ordered emitter sequence. -/
structure Scene where
  emitters : List Emitter
  deriving DecidableEq

namespace Integrator

/-- Method `getEmitterByID(emitterID)`: `return scene.emitters[emitterID];`. The `int` is converted to
`size_t` by the subscript; nothing checks it against the size. -/
def getEmitterByID (scene : Scene) (emitterID : Int) : Outcome Emitter :=
  match scene.emitters[(emitterID % 2 ^ 64).toNat]? with
  | some e => .value e
  | none => .undefined

/-- Method `selectEmitter(sample, pdf)`: the returned index and the value written to `pdf`.
`size_t(x)` truncates towards zero and is undefined when the truncated value does not fit. -/
def selectEmitter (scene : Scene) (sample : ℚ) : Outcome (Nat × ℚ) :=
  let n := scene.emitters.length
  let x := sample * (n : ℚ)
  if x ≤ -1 ∨ (2 : ℚ) ^ 64 ≤ x then .undefined
  else
    let id := ⌊x⌋.toNat
    let id := min id ((n + (2 ^ 64 - 1)) % 2 ^ 64)
    let pdf := 1 / (n : ℚ)
    .value (id, pdf)

/-- The call `std::find_if(first, last, pred)` as the distance of the result from `first`; the length
of the range when nothing satisfies `pred`. -/
def find_if {α : Type} (pred : α → Bool) : List α → Nat
  | [] => 0
  | a :: as => if pred a then 0 else find_if pred as + 1

/-- Method `getEmitterIDByShapeID(shapeID)`: `find_if`, `assert(it != end)`, `distance(begin, it)`. -/
def getEmitterIDByShapeID (scene : Scene) (shapeID : Nat) : Outcome Nat :=
  let it := find_if (fun s : Emitter => s.shapeID == shapeID) scene.emitters
  if it ≠ scene.emitters.length then .value it else .assertFail

/-- Method `getEmitterPdf(emitter)`: `return 1.f / scene.emitters.size();`. -/
def getEmitterPdf (scene : Scene) (_emitter : Emitter) : ℚ :=
  1 / (scene.emitters.length : ℚ)

end Integrator

/-! ## Properties of `Distribution1D` -/

namespace Distribution1D

end Distribution1D

/-! ## Properties of the scene queries -/

namespace Integrator

theorem find_if_eq_length_iff {α : Type} (pred : α → Bool) (l : List α) :
    find_if pred l = l.length ↔ ∀ a ∈ l, pred a = false := by
  induction l with
  | nil => simp [find_if]
  | cons a as ih =>
    by_cases h : pred a = true
    · simp [find_if, h]
    · simp only [Bool.not_eq_true] at h
      simp [find_if, h, ih]

theorem find_if_eq_of_first {α : Type} (pred : α → Bool) (l : List α) (i : Nat)
    (h : i < l.length) (hi : pred l[i] = true)
    (hj : ∀ j (hj : j < i), pred (l[j]) = false) : find_if pred l = i := by
  induction l generalizing i with
  | nil => simp at h
  | cons a as ih =>
    cases i with
    | zero =>
      have : pred a = true := by simpa using hi
      simp [find_if, this]
    | succ i =>
      have ha : pred a = false := by simpa using hj 0 (by omega)
      simp only [find_if, ha, Bool.false_eq_true, if_false, Nat.add_right_cancel_iff]
      apply ih i (by simpa using h) (by simpa using hi)
      intro j hji
      simpa using hj (j + 1) (by omega)

/-- Claim C5: `getEmitterIDByShapeID` returns the index of the first emitter whose `shapeID`
equals the argument when there is one, and takes the assertion path exactly when no emitter has
that `shapeID`. -/
theorem getEmitterIDByShapeID_first_or_assert (scene : Scene) (shapeID : Nat) :
    (∀ i (h : i < scene.emitters.length), scene.emitters[i].shapeID = shapeID →
      (∀ j (hj : j < i), (scene.emitters[j]).shapeID ≠ shapeID) →
      getEmitterIDByShapeID scene shapeID = .value i) ∧
    (getEmitterIDByShapeID scene shapeID = .assertFail ↔
      ∀ e ∈ scene.emitters, e.shapeID ≠ shapeID) := by
  constructor
  · intro i h hi hj
    have hf : find_if (fun s : Emitter => s.shapeID == shapeID) scene.emitters = i := by
      apply find_if_eq_of_first _ _ i h
      · simpa using hi
      · intro j hji
        simpa using hj j hji
    simp only [getEmitterIDByShapeID, hf]
    rw [if_pos (by omega)]
  · have hiff := find_if_eq_length_iff (fun s : Emitter => s.shapeID == shapeID) scene.emitters
    simp only [getEmitterIDByShapeID]
    constructor
    · intro h
      by_cases hc : find_if (fun s : Emitter => s.shapeID == shapeID) scene.emitters
          = scene.emitters.length
      · intro e he
        simpa using hiff.mp hc e he
      · rw [if_pos hc] at h
        cases h
    · intro h
      have hc : find_if (fun s : Emitter => s.shapeID == shapeID) scene.emitters
          = scene.emitters.length := hiff.mpr (by intro e he; simpa using h e he)
      rw [if_neg (by simpa using hc)]

/-- Claim C5 on the emitters at shapeIDs `{2, 5}`: querying `5` returns index `1`, querying the
unlisted `7` takes the assertion path. -/
theorem getEmitterIDByShapeID_first_or_assert_witness :
    getEmitterIDByShapeID ⟨[⟨2⟩, ⟨5⟩]⟩ 5 = .value 1 ∧
    getEmitterIDByShapeID ⟨[⟨2⟩, ⟨5⟩]⟩ 7 = .assertFail :=
  ⟨(getEmitterIDByShapeID_first_or_assert ⟨[⟨2⟩, ⟨5⟩]⟩ 5).1 1 (by decide) (by decide)
      (by decide),
    (getEmitterIDByShapeID_first_or_assert ⟨[⟨2⟩, ⟨5⟩]⟩ 7).2.mpr (by decide)⟩

/-- The subscript of `getEmitterByID` when the id is a valid index: the emitter at that
position. -/
theorem getEmitterByID_in_range (scene : Scene) (i : Nat) (h : i < scene.emitters.length)
    (hsz : scene.emitters.length < 2 ^ 64) :
    getEmitterByID scene (i : Int) = .value scene.emitters[i] := by
  have e : ((i : Int) % 2 ^ 64).toNat = i := by omega
  simp only [getEmitterByID, e, List.getElem?_eq_getElem h]

/-- Claim C7, the code at ids outside the range: on the two emitters at shapeIDs `{2, 5}` the
ids `2` and `-1` reach the unchecked subscript, which is undefined behaviour and not an
assertion failure; the id `1` returns the second emitter. -/
theorem getEmitterByID_out_of_range :
    getEmitterByID ⟨[⟨2⟩, ⟨5⟩]⟩ 2 = .undefined ∧
    getEmitterByID ⟨[⟨2⟩, ⟨5⟩]⟩ (-1) = .undefined ∧
    getEmitterByID ⟨[⟨2⟩, ⟨5⟩]⟩ 2 ≠ .assertFail ∧
    getEmitterByID ⟨[⟨2⟩, ⟨5⟩]⟩ (-1) ≠ .assertFail ∧
    getEmitterByID ⟨[⟨2⟩, ⟨5⟩]⟩ 1 = .value ⟨5⟩ := by
  refine ⟨by decide, by decide, by decide, by decide, by decide⟩

/-- Claim C8: for every scene, every emitter of it and every sample on which `selectEmitter`
has defined behaviour, the pdf reported by `selectEmitter` equals `getEmitterPdf(emitter)`, and
both are `1 / emitterCount` (exact arithmetic). -/
theorem selectEmitter_pdf_eq_getEmitterPdf (scene : Scene) (emitter : Emitter)
    (_he : emitter ∈ scene.emitters) (sample : ℚ)
    (hlo : -1 < sample * (scene.emitters.length : ℚ))
    (hhi : sample * (scene.emitters.length : ℚ) < 2 ^ 64) :
    ∃ id : Nat, selectEmitter scene sample = .value (id, getEmitterPdf scene emitter) ∧
      getEmitterPdf scene emitter = 1 / (scene.emitters.length : ℚ) := by
  have hc : ¬ (sample * (scene.emitters.length : ℚ) ≤ -1
      ∨ (2 : ℚ) ^ 64 ≤ sample * (scene.emitters.length : ℚ)) := by
    intro h
    rcases h with h | h
    · linarith
    · linarith
  refine ⟨min ⌊sample * (scene.emitters.length : ℚ)⌋.toNat
    ((scene.emitters.length + (2 ^ 64 - 1)) % 2 ^ 64), ?_, rfl⟩
  simp only [selectEmitter, hc, if_false, getEmitterPdf]

/-- Claim C8 on four emitters at `sample = 0.5`: both report `0.25`. -/
theorem selectEmitter_pdf_eq_getEmitterPdf_witness :
    ∃ id : Nat, selectEmitter ⟨[⟨1⟩, ⟨2⟩, ⟨3⟩, ⟨4⟩]⟩ (1 / 2)
        = .value (id, getEmitterPdf ⟨[⟨1⟩, ⟨2⟩, ⟨3⟩, ⟨4⟩]⟩ ⟨3⟩) ∧
      getEmitterPdf ⟨[⟨1⟩, ⟨2⟩, ⟨3⟩, ⟨4⟩]⟩ ⟨3⟩
        = 1 / (([⟨1⟩, ⟨2⟩, ⟨3⟩, ⟨4⟩] : List Emitter).length : ℚ) :=
  selectEmitter_pdf_eq_getEmitterPdf ⟨[⟨1⟩, ⟨2⟩, ⟨3⟩, ⟨4⟩]⟩ ⟨3⟩ (by decide) (1 / 2)
    (by norm_num) (by norm_num)

end Integrator

/-! ## Properties of `Sampler` -/

namespace Sampler

theorem run_d (cs : List Draw) : ∀ s : Sampler, (run cs s).2.d = s.d := by
  induction cs with
  | nil => intro s; rfl
  | cons c cs ih =>
    intro s
    cases c with
    | next => simp only [run]; rw [ih]; rfl
    | next2D => simp only [run]; rw [ih]; rfl

/-- Claim C9: for every seed `s` and every sampler consumed by any number of `next()` /
`next2D()` draws, `setSeed(s)` puts the sampler in the state of a fresh `Sampler(s)`, so the
draws that follow are those of the fresh sampler. -/
theorem setSeed_reproduces_fresh (seed seed0 : Int) (consumed following : List Draw) :
    ((run consumed (ofSeed seed0)).2.setSeed seed) = ofSeed seed ∧
    (run following ((run consumed (ofSeed seed0)).2.setSeed seed)).1
      = (run following (ofSeed seed)).1 := by
  have h : ((run consumed (ofSeed seed0)).2.setSeed seed) = ofSeed seed := by
    simp only [setSeed, uniform_real_distribution.reset, run_d, ofSeed]
  exact ⟨h, by rw [h]⟩

end Sampler
end TinyRender

